import Mathlib

/-!
Verification of the Prevalence Estimator Data Export scripts.

This file gives a shallow embedding of the two Python scripts
`src/scripts/input_processing.py` and `src/scripts/output_processing.py`.
JSON values (as produced by `json.load` / `ndjson.load`) are modelled by the
inductive type `JVal`; Python dictionaries are association lists
`List (String × JVal)` in insertion order (Python dicts preserve insertion
order and the scripts only ever use dicts with unique keys).  Python
exceptions that the scripts can raise are modelled with `Except PyErr`;
operations that can only raise exceptions the scripts catch are modelled
with `Option`.  Machine-level details (file handles, the `logging` module,
timestamps) are abstracted: the narrative report, the execution log and the
attachment manifest are explicit lists in a pipeline state, and the
current-date string is a parameter of the pipeline function.
-/

set_option autoImplicit false

namespace PrevExport

/-- A JSON value as parsed by Python's `json` / `ndjson` modules.  JSON
numbers appearing in this data set are integers, so `num` carries an `Int`. -/
inductive JVal where
  | null
  | bool (b : Bool)
  | num (n : Int)
  | str (s : String)
  | arr (items : List JVal)
  | obj (fields : List (String × JVal))
deriving Repr

/-- A Python dictionary with string keys, in insertion order. -/
abbrev Dict := List (String × JVal)

/-- Python exceptions that the scripts can raise and that we track. -/
inductive PyErr where
  | typeError
  | keyError
  | attributeError
deriving Repr, DecidableEq

/-- Lookup of a key in a dictionary (Python `d[k]` when the key is present;
`none` models a `KeyError`).  Returns the first matching entry. -/
def lookup? : Dict → String → Option JVal
  | [], _ => none
  | (k', v') :: rest, k => if k' = k then some v' else lookup? rest k

/-- Python `k in d` for a dictionary `d`. -/
def hasKey (d : Dict) (k : String) : Bool :=
  (lookup? d k).isSome

/-- Python `d[k] = v`: replaces the value of an existing key in place,
otherwise appends the new key at the end (insertion-order semantics). -/
def setKey : Dict → String → JVal → Dict
  | [], k, v => [(k, v)]
  | (k', v') :: rest, k, v =>
    if k' = k then (k, v) :: rest else (k', v') :: setKey rest k v

/-- Python `del d[k]` (for the unique-key dictionaries used by the script). -/
def delKey (d : Dict) (k : String) : Dict :=
  d.filter (fun kv => !(kv.fst == k))

/-- Python `v[k]` for a string key `k`: on a dictionary it is a lookup
(raising `KeyError` when absent); on every other JSON value it raises
`TypeError` (lists and strings only take integer indices; `None`, booleans
and numbers are not subscriptable). -/
def pySubscrStr (v : JVal) (k : String) : Except PyErr JVal :=
  match v with
  | .obj fields =>
    match lookup? fields k with
    | some w => .ok w
    | none => .error .keyError
  | _ => .error .typeError

/-- Python `len(v)`: defined for lists, strings and dictionaries, a
`TypeError` on `None`, booleans and numbers. -/
def pyLen (v : JVal) : Except PyErr Nat :=
  match v with
  | .arr items => .ok items.length
  | .str s => .ok s.length
  | .obj fields => .ok fields.length
  | _ => .error .typeError

/-- Python iteration `for x in v`: a list yields its items, a string yields
its characters as one-character strings, a dictionary yields its keys;
everything else raises `TypeError`. -/
def pyIter (v : JVal) : Except PyErr (List JVal) :=
  match v with
  | .arr items => .ok items
  | .str s => .ok (s.toList.map (fun c => JVal.str (String.singleton c)))
  | .obj fields => .ok (fields.map (fun kv => JVal.str kv.fst))
  | _ => .error .typeError

/-- Substring test on strings (Python `needle in hay` for strings),
implemented by checking every suffix for the needle as a prefix. -/
def strContainsSubstr (hay needle : String) : Bool :=
  (List.range (hay.toList.length + 1)).any
    (fun i => needle.toList.isPrefixOf (hay.toList.drop i))

/-- Python `needle in v` for a string `needle`: key test on a dictionary,
membership test on a list (a string only ever equals an equal string),
substring test on a string; `TypeError` otherwise. -/
def pyContainsStr (needle : String) (v : JVal) : Except PyErr Bool :=
  match v with
  | .obj fields => .ok (hasKey fields needle)
  | .arr items =>
    .ok (items.any (fun x => match x with | .str s => s == needle | _ => false))
  | .str s => .ok (strContainsSubstr s needle)
  | _ => .error .typeError

/-- Python `v == True`.  Because `bool` is a subclass of `int` in Python,
the numbers `1` (and `1.0`) also compare equal to `True`; every other JSON
value compares unequal. -/
def pyEqTrue (v : JVal) : Bool :=
  match v with
  | .bool b => b
  | .num n => n == 1
  | _ => false

/-- Fail-fast effectful map over a list, modelling a Python `for` loop whose
body may raise: elements are processed left to right and the first raised
exception aborts the whole loop. -/
def mapExcept {α β : Type} (f : α → Except PyErr β) : List α → Except PyErr (List β)
  | [] => .ok []
  | x :: xs =>
    match f x with
    | .error e => .error e
    | .ok y =>
      match mapExcept f xs with
      | .error e => .error e
      | .ok ys => .ok (y :: ys)

/-- Fail-fast effectful filter, modelling the list comprehension
`[test for test in sample["tests"] if ...]` whose condition may raise. -/
def exceptFilter (p : JVal → Except PyErr Bool) : List JVal → Except PyErr (List JVal)
  | [] => .ok []
  | x :: xs =>
    match p x with
    | .error e => .error e
    | .ok b =>
      match exceptFilter p xs with
      | .error e => .error e
      | .ok rest => .ok (if b then x :: rest else rest)

/-!  The functions of `input_processing.py`. -/

/-- The function `add_missing_defaults_inplace` of `input_processing.py`:
for every key of `default_values` absent from `original_dict`, the default
entry is appended; existing entries (including explicit `None`s) are kept. -/
def add_missing_defaults_inplace (original_dict default_values : Dict) : Dict :=
  default_values.foldl
    (fun d kv => if hasKey d kv.fst then d else d ++ [kv]) original_dict

/-- The dictionary `needed_keys_with_defaults` built in the sample loop of
`input_processing.py`: the seven canonical sample fields, defaulted to
`None`. -/
def needed_keys_with_defaults : Dict :=
  [("id", .null),
   ("sub_administrative_area_id", .null),
   ("species", .null),
   ("age_group", .null),
   ("sex", .null),
   ("sample_source", .null),
   ("result", .null)]

/-- The `id` derivation of the sample loop:
`sample['id'] = sample['_id']` under `except KeyError: pass`. -/
def setIdStep (s : Dict) : Dict :=
  match lookup? s "_id" with
  | some v => setKey s "id" v
  | none => s

/-- The area derivation of the sample loop:
`sample["sub_administrative_area_id"] = sample['_sub_administrative_area']['_id']`
under `except (KeyError, TypeError): pass`.  Both subscripts can only raise
`KeyError` or `TypeError`, so a failed chain leaves the sample unchanged. -/
def setAreaStep (s : Dict) : Dict :=
  match lookup? s "_sub_administrative_area" with
  | some (.obj fields) =>
    match lookup? fields "_id" with
    | some v => setKey s "sub_administrative_area_id" v
    | none => s
  | _ => s

/-- The filter condition of the comprehension in the sample loop:
`"selected_definitive" in test and test["selected_definitive"] == True`
(short-circuit conjunction; either operand may raise). -/
def isSelDef (t : JVal) : Except PyErr Bool :=
  match pyContainsStr "selected_definitive" t with
  | .error e => .error e
  | .ok false => .ok false
  | .ok true =>
    match pySubscrStr t "selected_definitive" with
    | .error e => .error e
    | .ok v => .ok (pyEqTrue v)

/-- The comprehension
`[test for test in sample["tests"] if "selected_definitive" in test and test["selected_definitive"] == True]`
applied to the value of the `tests` key. -/
def selectedTests (tv : JVal) : Except PyErr (List JVal) :=
  match pyIter tv with
  | .error e => .error e
  | .ok items => exceptFilter isSelDef items

/-- The inner `try: sample["result"] = tests_selected_definitive[0]["result"]`
with `except (KeyError, TypeError, ValueError): pass`: `none` means the
assignment was skipped because the subscript raised a caught exception. -/
def tryGetResult (m : JVal) : Option JVal :=
  match m with
  | .obj fields => lookup? fields "result"
  | _ => none

/-- The record produced by the result-resolution branch once the list of
definitive tests is known: a unique match contributes its `result` value
when readable (otherwise the record is left untouched); any other number of
matches forces a null `result`. -/
def resultOf (d : Dict) (ms : List JVal) : Dict :=
  match ms with
  | [m] =>
    match tryGetResult m with
    | some v => setKey d "result" v
    | none => d
  | _ => setKey d "result" JVal.null

/-- The result-resolution step of the sample loop.  The Python test
`len(tests_selected_definitive) == 1` is rendered as a match on the
singleton list shape.  Exceptions raised by `len(sample['tests'])` or by the
comprehension propagate (they are not caught by the script). -/
def resultStep (s : Dict) : Except PyErr Dict :=
  match lookup? s "tests" with
  | none => .ok (setKey s "result" .null)
  | some tv =>
    match pyLen tv with
    | .error e => .error e
    | .ok n =>
      if n = 0 then .ok (setKey s "result" .null)
      else
        match selectedTests tv with
        | .error e => .error e
        | .ok ms =>
          match ms with
          | [m] =>
            match tryGetResult m with
            | some v => .ok (setKey s "result" v)
            | none => .ok s
          | _ => .ok (setKey s "result" .null)

/-- The first three steps of the sample loop: default-fill, `id`
derivation, area derivation (all total). -/
def preSteps (s : Dict) : Dict :=
  setAreaStep (setIdStep
    (add_missing_defaults_inplace s needed_keys_with_defaults))

/-- One iteration of the sample loop of `input_processing.py` on a sample
that is a dictionary: default-fill, `id` derivation, area derivation, result
resolution. -/
def normalizeSample (s : Dict) : Except PyErr Dict :=
  resultStep (preSteps s)

/-- One iteration of the sample loop on an arbitrary parsed ndjson line.  A
sample that is not a dictionary raises `TypeError` in the loop body (either
at the `key not in original_dict` membership test or at the subsequent item
assignment), uncaught. -/
def normalizeSampleVal (v : JVal) : Except PyErr Dict :=
  match v with
  | .obj s => normalizeSample s
  | _ => .error .typeError

/-!  Python string rendering, as used by f-string interpolation in the
report helpers.  `pyStr` is Python `str()`; container elements are rendered
with `repr()`, which puts quotes around strings.  (Python's `repr` switches
to double quotes for strings that contain a single quote; the strings of
this data set do not, so single quotes are used throughout.) -/

mutual

/-- Python `repr()` of a JSON value. -/
def pyRepr : JVal → String
  | .null => "None"
  | .bool b => if b then "True" else "False"
  | .num n => toString n
  | .str s => "\x27" ++ s ++ "\x27"
  | .arr l => "[" ++ pyReprItems l ++ "]"
  | .obj f => "\x7b" ++ pyReprFields f ++ "\x7d"

/-- Comma-separated `repr()`s of list items. -/
def pyReprItems : List JVal → String
  | [] => ""
  | [x] => pyRepr x
  | x :: y :: xs => pyRepr x ++ ", " ++ pyReprItems (y :: xs)

/-- Comma-separated `repr()`s of dictionary entries. -/
def pyReprFields : List (String × JVal) → String
  | [] => ""
  | [(k, v)] => "\x27" ++ k ++ "\x27: " ++ pyRepr v
  | (k, v) :: y :: xs => "\x27" ++ k ++ "\x27: " ++ pyRepr v ++ ", " ++ pyReprFields (y :: xs)

end

/-- Python `str()` of a JSON value (equal to `repr()` except on strings). -/
def pyStr (v : JVal) : String :=
  match v with
  | .str s => s
  | _ => pyRepr v

/-!  The helper `dict_to_html_list` of `input_processing.py` (with its
default `list_type='unordered'`). -/

mutual

/-- The body of the `for key, value in data.items()` loop of
`_dict_to_html_helper`, concatenated over the entries. -/
def dictToHtmlFields : List (String × JVal) → String
  | [] => ""
  | (k, v) :: rest =>
    "<li>" ++ k ++ ": " ++ dictToHtmlValue v ++ "</li>" ++ dictToHtmlFields rest

/-- Rendering of one value position in `_dict_to_html_helper`: nested
dictionaries recurse, lists become nested unordered lists, everything else
is interpolated with `str()`. -/
def dictToHtmlValue : JVal → String
  | .obj f => "<ul>" ++ dictToHtmlFields f ++ "</ul>"
  | .arr l => "<ul>" ++ dictToHtmlItems l ++ "</ul>"
  | v => pyStr v

/-- The `for item in value` loop of `_dict_to_html_helper`. -/
def dictToHtmlItems : List JVal → String
  | [] => ""
  | x :: xs => "<li>" ++ pyStr x ++ "</li>" ++ dictToHtmlItems xs

end

/-- The function `dict_to_html_list` of `input_processing.py` applied to a
dictionary, with the default unordered list type. -/
def dict_to_html_list (d : Dict) : String :=
  "<ul>" ++ dictToHtmlFields d ++ "</ul>"

/-!  The CSV writer contract: `csv.DictWriter` with
`quoting=csv.QUOTE_NONNUMERIC` and `extrasaction='ignore'`.  A CSV file is
modelled as its list of lines (each written line is terminated by the
dialect's line terminator; no value of this data set contains a line
terminator, so rows and physical lines coincide). -/

/-- CSV quoting of a string field: surrounding double quotes, embedded
double quotes doubled. -/
def csvQuote (s : String) : String :=
  "\x22" ++
    String.mk (s.toList.foldr
      (fun c acc => if c = '\x22' then '\x22' :: '\x22' :: acc else c :: acc) []) ++
  "\x22"

/-- Rendering of one field by `csv.writer` under `QUOTE_NONNUMERIC`:
numbers (including booleans, which are numeric in Python) are written
unquoted via `str()`; `None` becomes the quoted empty string; every other
value is written via `str()` and quoted. -/
def renderCell : JVal → String
  | .null => csvQuote ""
  | .bool b => if b then "True" else "False"
  | .num n => toString n
  | .str s => csvQuote s
  | .arr l => csvQuote (pyStr (.arr l))
  | .obj f => csvQuote (pyStr (.obj f))

/-- One data row written by `DictWriter.writerow`: one cell per field name,
taken from the record by key; a missing key renders as the default
`restval`, the empty string.  Extra keys of the record are ignored
(`extrasaction='ignore'`). -/
def writeRow (fieldnames : List String) (row : Dict) : String :=
  String.intercalate ","
    (fieldnames.map (fun k =>
      match lookup? row k with
      | some v => renderCell v
      | none => renderCell (JVal.str "")))

/-- The header row written by `DictWriter.writeheader`: the field names
themselves, quoted as string fields. -/
def writeHeader (fieldnames : List String) : String :=
  String.intercalate "," (fieldnames.map csvQuote)

/-- The fixed column list of `/data/sample.csv`. -/
def sample_fieldnames : List String :=
  ["id", "sub_administrative_area_id", "species", "age_group", "sex",
   "sample_source", "result"]

/-- The sample CSV writer: header row followed by one row per sample, in
the fixed column order. -/
def writeSamplesCsv (rows : List Dict) : List String :=
  writeHeader sample_fieldnames :: rows.map (writeRow sample_fieldnames)

/-- The parameters CSV writer: `fieldnames = params.keys()`, a header row
and a single data row. -/
def writeParamsCsv (params : Dict) : List String :=
  [writeHeader (params.map Prod.fst), writeRow (params.map Prod.fst) params]

/-- The fixed column list of `/data/sub_administrative_area.csv`. -/
def subadmin_fieldnames : List String := ["id", "full_name"]

/-- One iteration of the sub-administrative-area loop:
`subadmin['id'] = subadmin['_id']` under `except (KeyError, TypeError): pass`.
A non-dictionary line is left unchanged (its subscript raises a caught
`TypeError`). -/
def normalizeSubadminVal (v : JVal) : JVal :=
  match v with
  | .obj s =>
    match lookup? s "_id" with
    | some idv => .obj (setKey s "id" idv)
    | none => .obj s
  | other => other

/-- The sub-area CSV writer.  `DictWriter.writerows` raises
`AttributeError` (uncaught) on a row that is not a dictionary. -/
def writeSubadminsCsv (rows : List JVal) : Except PyErr (List String) :=
  match mapExcept
      (fun r => match r with
        | .obj d => Except.ok (writeRow subadmin_fieldnames d)
        | _ => Except.error PyErr.attributeError) rows with
  | .error e => .error e
  | .ok ls => .ok (writeHeader subadmin_fieldnames :: ls)

/-!  The input pipeline as a whole. -/

/-- One entry of the attachment manifest `attachments.json`. -/
structure Attachment where
  filename : String
  content_type : String
  role : String
deriving Repr, DecidableEq

/-- The observable state accumulated by a run of `input_processing.py`:
the narrative report `info.html` as a list of (HTML element, line) pairs,
the execution log as a list of (level, message) pairs, the attachment
manifest, and the three tabular outputs (present once written). -/
structure PipeState where
  narrative : List (String × String)
  log : List (String × String)
  attachments : List Attachment
  params_csv : Option (List String)
  sample_csv : Option (List String)
  subadmin_csv : Option (List String)
deriving Repr

/-- How a run of `input_processing.py` ends: an explicit `sys.exit(code)`,
an uncaught exception propagating to the `sys.excepthook` handler, or
normal completion (process status 0). -/
inductive PipeOutcome where
  | exited (code : Nat) (st : PipeState)
  | uncaught (e : PyErr) (st : PipeState)
  | finished (st : PipeState)
deriving Repr

/-- The state after the setup sections of `input_processing.py`: manifest
initialized with the execution-log and info-log attachments, narrative
header written, preamble log entries recorded, no tabular output yet.  The
formatted current date is the parameter `dateStr`. -/
def initState (dateStr : String) : PipeState :=
  { narrative :=
      [("h3", "Model Execution Summary"),
       ("p", "Model: Prevalence Estimator Data Export"),
       ("p", "Date: " ++ dateStr ++ " GMT")],
    log :=
      [("INFO", "Model: Prevalence Estimator Data Export"),
       ("INFO", "Date: " ++ dateStr ++ " GMT"),
       ("INFO", "This log records data for debugging purposes in the case of a model execution error.")],
    attachments :=
      [⟨"execution_log.log", "text/plain", "downloadable"⟩,
       ⟨"info.html", "text/html", "feedback"⟩],
    params_csv := none,
    sample_csv := none,
    subadmin_csv := none }

/-- The main flow of `input_processing.py`.  The three inputs are the
parsed contents of `params.json`, `sample.ndJson` and
`sub_administrative_area.ndJson`; `none` models a file that is absent or
unparseable (the script catches every exception of the corresponding
`open`/load with a bare `except:`). -/
def inputProcessing (dateStr : String) (paramsFile : Option JVal)
    (sampleFile : Option (List JVal)) (subadminFile : Option (List JVal)) :
    PipeOutcome :=
  let st := initState dateStr
  match paramsFile with
  | none =>
    .exited 1
      { st with
        log := st.log ++ [("ERROR", "params.json File does not exist.")],
        narrative := st.narrative ++
          [("h4", "ERROR"), ("p", "Parameters (params.json) file not found.")] }
  | some pv =>
    let st := { st with log := st.log ++ [("INFO", "Parameter file loaded successfully")] }
    match pySubscrStr pv "_provider" with
    | .error e => .uncaught e st
    | .ok prov =>
    match pySubscrStr prov "_administrative_area" with
    | .error e => .uncaught e st
    | .ok aa =>
    match pySubscrStr aa "administrative_area" with
    | .error e => .uncaught e st
    | .ok adminAreaVal =>
    match pv with
    | .obj pf =>
      let rest := delKey pf "_provider"
      let st := { st with params_csv := some (writeParamsCsv rest) }
      -- `'Provider area: ' + provider_admin_area` raises `TypeError`
      -- (uncaught) unless the extracted value is a string.
      match adminAreaVal with
      | .str area =>
        let st := { st with narrative := st.narrative ++
            [("p", "Provider area: " ++ area),
             ("h4", "User provided parameters:"),
             ("p", dict_to_html_list rest)] }
        match sampleFile with
        | none =>
          .exited 1
            { st with
              log := st.log ++ [("ERROR", "samples.ndjson file does not exist.")],
              narrative := st.narrative ++
                [("h4", "ERROR"),
                 ("p", "Samples (sample.ndjson) file not found. Sample data are required to run this model. Execution halted.")] }
        | some samples =>
          let st := { st with
            log := st.log ++ [("INFO", "Sample file loaded successfully")],
            narrative := st.narrative ++
              [("h4", "Warehouse data provided to model"),
               ("p", "Samples: " ++ toString samples.length)] }
          match mapExcept normalizeSampleVal samples with
          | .error e => .uncaught e st
          | .ok normed =>
            let st := { st with sample_csv := some (writeSamplesCsv normed) }
            match subadminFile with
            | none =>
              .exited 1
                { st with
                  log := st.log ++
                    [("ERROR", "sub_administrative_area.json File does not exist.")],
                  narrative := st.narrative ++
                    [("h4", "ERROR"),
                     ("p", "Sub-administrative areas (sub_administrative_area.json) file not found.")] }
            | some subs =>
              let st := { st with
                log := st.log ++
                  [("INFO", "Sub-administrative area file loaded successfully")] }
              match writeSubadminsCsv (subs.map normalizeSubadminVal) with
              | .error e => .uncaught e st
              | .ok ls =>
                .finished
                  { st with
                    subadmin_csv := some ls,
                    log := st.log ++
                      [("INFO", "Model input processing successfully completed.")] }
      | _ => .uncaught .typeError st
    | _ => .uncaught .typeError st

/-!  The output pipeline (`output_processing.py`). -/

/-- The spreadsheet written by `df.to_excel(..., sheet_name='Data',
index=False)`: a single sheet holding the table verbatim. -/
structure Xlsx where
  sheetName : String
  table : List (List String)
deriving Repr, DecidableEq

/-- The observable state of a run of `output_processing.py`.  The log is
opened in append mode, so `log` holds only the entries of this run; the
attachment manifest starts from the list already present in
`attachments.json`. -/
structure OutState where
  narrative : List (String × String)
  log : List (String × String)
  attachments : List Attachment
  xlsx : Option Xlsx
deriving Repr

/-- How a run of `output_processing.py` ends. -/
inductive OutOutcome where
  | exited (code : Nat) (st : OutState)
  | finished (st : OutState)
deriving Repr

/-- The fixed MIME type of the spreadsheet attachment. -/
def xlsxMime : String :=
  "application/vnd.openxmlformats-officedocument.spreadsheetml.sheet"

/-- The main flow of `output_processing.py`.  The input is the table parsed
by `pd.read_csv` from `SpeedGoatOutputMatrix.csv`; `none` models a file
that is absent or that pandas cannot parse as a rectangular table (the
script catches every `Exception` of the read). -/
def output_processing (table : Option (List (List String)))
    (att0 : List Attachment) : OutOutcome :=
  let st : OutState :=
    { narrative := [("h3", "Model Exports")],
      log := [],
      attachments := att0,
      xlsx := none }
  match table with
  | none =>
    .exited 1
      { st with
        narrative := st.narrative ++
          [("h4", "ERROR"),
           ("p", "SpeedGoatOutputMatrix.csv not found or could not be imported by Pandas.")],
        log := st.log ++
          [("ERROR", "SpeedGoatOutputMatrix.csv not found or could not be imported by Pandas.")] }
  | some t =>
    let st := { st with xlsx := some ⟨"Data", t⟩ }
    let st := { st with attachments := st.attachments ++
        [Attachment.mk "PrevalenceEstimatorData.xlsx" xlsxMime "downloadable"] }
    .finished
      { st with
        narrative := st.narrative ++ [("p", "Model exports successfully created.")],
        log := st.log ++ [("INFO", "Model output processing successfully completed.")] }

/-- The nested path `params['_provider']['_administrative_area']['administrative_area']`
read by the parameter loader (each subscript may raise, uncaught). -/
def providerAdminArea (pv : JVal) : Except PyErr JVal :=
  match pySubscrStr pv "_provider" with
  | .error e => .error e
  | .ok prov =>
    match pySubscrStr prov "_administrative_area" with
    | .error e => .error e
    | .ok aa => pySubscrStr aa "administrative_area"

/-- The value the area-derivation step of the sample loop would assign:
`some v` exactly when a nested `_sub_administrative_area` dictionary with an
`_id` entry is present. -/
def areaOf (s : Dict) : Option JVal :=
  match lookup? s "_sub_administrative_area" with
  | some (.obj fields) => lookup? fields "_id"
  | _ => none

/-!  Concrete records used to check the claims on explicit inputs. -/

/-- A sample whose single definitive test lacks a `result` field while the
input record already carries a `result` value. -/
def cexStale : Dict :=
  [("result", JVal.str "old"),
   ("tests", JVal.arr [JVal.obj [("selected_definitive", JVal.bool true)]])]

/-- The normalized form of `cexStale`. -/
def cexStaleOut : Dict :=
  [("result", JVal.str "old"),
   ("tests", JVal.arr [JVal.obj [("selected_definitive", JVal.bool true)]]),
   ("id", JVal.null), ("sub_administrative_area_id", JVal.null),
   ("species", JVal.null), ("age_group", JVal.null), ("sex", JVal.null),
   ("sample_source", JVal.null)]

/-- A sample with exactly one test whose `selected_definitive` is the
boolean `true`, next to a test whose `selected_definitive` is the number
`1` (which Python's `==` also treats as equal to `True`). -/
def cexCoerce : Dict :=
  [("tests", JVal.arr
    [JVal.obj [("selected_definitive", JVal.bool true), ("result", JVal.str "pos")],
     JVal.obj [("selected_definitive", JVal.num 1), ("result", JVal.str "neg")]])]

/-- The normalized form of `cexCoerce`. -/
def cexCoerceOut : Dict :=
  [("tests", JVal.arr
    [JVal.obj [("selected_definitive", JVal.bool true), ("result", JVal.str "pos")],
     JVal.obj [("selected_definitive", JVal.num 1), ("result", JVal.str "neg")]]),
   ("id", JVal.null), ("sub_administrative_area_id", JVal.null),
   ("species", JVal.null), ("age_group", JVal.null), ("sex", JVal.null),
   ("sample_source", JVal.null), ("result", JVal.null)]

/-- A sample with no test whose `selected_definitive` is the boolean
`true`, but one test whose `selected_definitive` is the number `1`. -/
def cexOneNum : Dict :=
  [("tests", JVal.arr
    [JVal.obj [("selected_definitive", JVal.num 1), ("result", JVal.str "pos")]])]

/-- The normalized form of `cexOneNum`. -/
def cexOneNumOut : Dict :=
  [("tests", JVal.arr
    [JVal.obj [("selected_definitive", JVal.num 1), ("result", JVal.str "pos")]]),
   ("id", JVal.null), ("sub_administrative_area_id", JVal.null),
   ("species", JVal.null), ("age_group", JVal.null), ("sex", JVal.null),
   ("sample_source", JVal.null), ("result", JVal.str "pos")]

/-- A sample whose `tests` value is a dictionary rather than a sequence of
mappings. -/
def cexObjTests : Dict := [("tests", JVal.obj [("a", JVal.num 1)])]

/-- The normalized form of `cexObjTests`: normalization succeeds on it. -/
def cexObjTestsOut : Dict :=
  [("tests", JVal.obj [("a", JVal.num 1)]),
   ("id", JVal.null), ("sub_administrative_area_id", JVal.null),
   ("species", JVal.null), ("age_group", JVal.null), ("sex", JVal.null),
   ("sample_source", JVal.null), ("result", JVal.null)]

/-- The `tests` value of the witness sample for the single-match rule. -/
def c1wTests : JVal :=
  JVal.arr [JVal.obj [("selected_definitive", JVal.bool true),
                      ("result", JVal.str "positive")]]

/-- A witness sample with exactly one definitive test carrying a result. -/
def c1wIn : Dict := [("tests", c1wTests)]

/-- The normalized form of `c1wIn`. -/
def c1wOut : Dict :=
  [("tests", c1wTests),
   ("id", JVal.null), ("sub_administrative_area_id", JVal.null),
   ("species", JVal.null), ("age_group", JVal.null), ("sex", JVal.null),
   ("sample_source", JVal.null), ("result", JVal.str "positive")]

/-- A witness sample with one canonical field present and the others
absent. -/
def c2wIn : Dict := [("species", JVal.str "deer")]

/-- The `tests` value of the witness sample for the ambiguous case. -/
def c3wTests : JVal :=
  JVal.arr [JVal.obj [("selected_definitive", JVal.bool true), ("result", JVal.str "A")],
            JVal.obj [("selected_definitive", JVal.bool true), ("result", JVal.str "B")]]

/-- A witness sample with two definitive tests. -/
def c3wIn : Dict := [("tests", c3wTests)]

/-- The normalized form of `c3wIn`: `result` resolved to null. -/
def c3wOut : Dict :=
  [("tests", c3wTests),
   ("id", JVal.null), ("sub_administrative_area_id", JVal.null),
   ("species", JVal.null), ("age_group", JVal.null), ("sex", JVal.null),
   ("sample_source", JVal.null), ("result", JVal.null)]

/-- A witness list of raw samples for the tabulation round trip. -/
def c4wSamples : List JVal := [JVal.obj [("_id", JVal.str "s1")]]

/-- The normalized forms of `c4wSamples`. -/
def c4wNormed : List Dict :=
  [[("_id", JVal.str "s1"),
    ("id", JVal.str "s1"), ("sub_administrative_area_id", JVal.null),
    ("species", JVal.null), ("age_group", JVal.null), ("sex", JVal.null),
    ("sample_source", JVal.null), ("result", JVal.null)]]

/-- A witness parameter dictionary containing the provider path. -/
def c6wParams : Dict :=
  [("_provider", JVal.obj [("_administrative_area",
      JVal.obj [("administrative_area", JVal.str "New York")])]),
   ("n_years", JVal.num 5)]

/-- A witness sample carrying a nested sub-administrative-area object. -/
def c7wIn : Dict :=
  [("_sub_administrative_area", JVal.obj [("_id", JVal.str "area1")])]

/-- The normalized form of `c7wIn`. -/
def c7wOut : Dict :=
  [("_sub_administrative_area", JVal.obj [("_id", JVal.str "area1")]),
   ("id", JVal.null), ("sub_administrative_area_id", JVal.str "area1"),
   ("species", JVal.null), ("age_group", JVal.null), ("sex", JVal.null),
   ("sample_source", JVal.null), ("result", JVal.null)]

/-- A witness `tests` sequence of mappings for the totality statement. -/
def c10wTests : List JVal := [JVal.obj [("x", JVal.bool true)]]

/-- A witness sample whose `tests` is a sequence of mappings. -/
def c10wIn : Dict := [("tests", JVal.arr c10wTests)]

/-!  Basic lemmas about the dictionary operations. -/

theorem lookup?_append (d e : Dict) (k : String) :
    lookup? (d ++ e) k =
      match lookup? d k with
      | some v => some v
      | none => lookup? e k := by
  induction d with
  | nil => rfl
  | cons kv rest ih =>
    obtain ⟨k', v'⟩ := kv
    by_cases h : k' = k <;> simp [lookup?, h, ih]

theorem lookup?_amdi (d ds : Dict) (k : String) :
    lookup? (add_missing_defaults_inplace d ds) k =
      match lookup? d k with
      | some v => some v
      | none => lookup? ds k := by
  induction ds generalizing d with
  | nil =>
    cases h : lookup? d k <;> simp [add_missing_defaults_inplace, h, lookup?]
  | cons kv rest ih =>
    obtain ⟨k0, v0⟩ := kv
    show lookup? (add_missing_defaults_inplace
        (if hasKey d k0 then d else d ++ [(k0, v0)]) rest) k = _
    by_cases hk : hasKey d k0
    · rw [if_pos hk, ih d]
      cases hdk : lookup? d k with
      | some v => simp
      | none =>
        by_cases hk0 : k0 = k
        · subst hk0
          simp [hasKey, hdk] at hk
        · simp [lookup?, hk0]
    · rw [if_neg hk, ih (d ++ [(k0, v0)]), lookup?_append]
      cases hdk : lookup? d k with
      | some v => simp
      | none =>
        by_cases hk0 : k0 = k
        · subst hk0; simp [lookup?]
        · simp [lookup?, hk0]

theorem lookup?_setKey_self (d : Dict) (k : String) (v : JVal) :
    lookup? (setKey d k v) k = some v := by
  induction d with
  | nil => simp [setKey, lookup?]
  | cons kv rest ih =>
    obtain ⟨k', v'⟩ := kv
    by_cases h : k' = k <;> simp [setKey, lookup?, h, ih]

theorem lookup?_setKey_ne (d : Dict) (k k' : String) (v : JVal) (h : k' ≠ k) :
    lookup? (setKey d k v) k' = lookup? d k' := by
  have hkk : ¬k = k' := fun hh => h hh.symm
  induction d with
  | nil =>
    simp only [setKey, lookup?]
    rw [if_neg hkk]
  | cons kv rest ih =>
    obtain ⟨k'', v''⟩ := kv
    by_cases h2 : k'' = k
    · simp only [setKey, if_pos h2, lookup?]
      rw [if_neg hkk, if_neg (fun hh : k'' = k' => hkk (h2.symm.trans hh))]
    · simp only [setKey, if_neg h2, lookup?]
      by_cases h3 : k'' = k'
      · rw [if_pos h3, if_pos h3]
      · rw [if_neg h3, if_neg h3, ih]

theorem hasKey_setKey (d : Dict) (k k' : String) (v : JVal)
    (h : hasKey d k' = true) : hasKey (setKey d k v) k' = true := by
  by_cases hk : k' = k
  · subst hk; simp [hasKey, lookup?_setKey_self]
  · simpa [hasKey, lookup?_setKey_ne d k k' v hk] using h

theorem lookup?_delKey_self (d : Dict) (k : String) :
    lookup? (delKey d k) k = none := by
  unfold delKey
  induction d with
  | nil => rfl
  | cons kv rest ih =>
    obtain ⟨k', v'⟩ := kv
    rw [List.filter_cons]
    by_cases h : k' = k
    · simpa [h] using ih
    · have hb : (!((k', v').fst == k)) = true := by simp [h]
      rw [if_pos hb]
      simpa [lookup?, h] using ih

theorem lookup?_filter_prop (r : Dict) (p : String → Bool) (k : String)
    (hk : p k = true) :
    lookup? (r.filter (fun kv => p kv.fst)) k = lookup? r k := by
  induction r with
  | nil => rfl
  | cons kv rest ih =>
    obtain ⟨k', v'⟩ := kv
    by_cases h : k' = k
    · subst h; simp [List.filter, hk, lookup?]
    · by_cases hp : p k' <;> simp [List.filter, hp, lookup?, h, ih]

theorem map_congr_mem {α β : Type} (l : List α) (f g : α → β)
    (h : ∀ a, a ∈ l → f a = g a) : l.map f = l.map g := by
  induction l with
  | nil => rfl
  | cons x xs ih =>
    simp only [List.map, h x (by simp)]
    rw [ih (fun a ha => h a (by simp [ha]))]

theorem mapExcept_ok_length {α β : Type} (f : α → Except PyErr β)
    (l : List α) (ys : List β) (h : mapExcept f l = .ok ys) :
    ys.length = l.length := by
  induction l generalizing ys with
  | nil => simp [mapExcept] at h; subst h; rfl
  | cons x xs ih =>
    unfold mapExcept at h
    cases hf : f x with
    | error e => rw [hf] at h; cases h
    | ok y =>
      rw [hf] at h
      cases hr : mapExcept f xs with
      | error e => rw [hr] at h; cases h
      | ok ys' =>
        rw [hr] at h
        cases h
        simp [ih ys' hr]

/-!  Lemmas about the normalization steps. -/

-- The canonical default values are all null.
theorem lookup?_needed (k : String) (hk : k ∈ sample_fieldnames) :
    lookup? needed_keys_with_defaults k = some JVal.null := by
  fin_cases hk <;> rfl

theorem lookup?_setIdStep_ne (d : Dict) (k : String) (h : k ≠ "id") :
    lookup? (setIdStep d) k = lookup? d k := by
  unfold setIdStep
  cases lookup? d "_id" with
  | none => rfl
  | some v => exact lookup?_setKey_ne d "id" k v h

theorem lookup?_setAreaStep_ne (d : Dict) (k : String)
    (h : k ≠ "sub_administrative_area_id") :
    lookup? (setAreaStep d) k = lookup? d k := by
  unfold setAreaStep
  split
  · split
    · exact lookup?_setKey_ne d "sub_administrative_area_id" k _ h
    · rfl
  · rfl

theorem hasKey_setIdStep (d : Dict) (k : String) (h : hasKey d k = true) :
    hasKey (setIdStep d) k = true := by
  unfold setIdStep
  cases lookup? d "_id" with
  | none => exact h
  | some v => exact hasKey_setKey d "id" k v h

theorem hasKey_setAreaStep (d : Dict) (k : String) (h : hasKey d k = true) :
    hasKey (setAreaStep d) k = true := by
  unfold setAreaStep
  split
  · split
    · exact hasKey_setKey d "sub_administrative_area_id" k _ h
    · exact h
  · exact h

-- Looking a key up after the three total steps: keys other than `id` and
-- `sub_administrative_area_id` see the input value, defaulted from
-- `needed_keys_with_defaults` when absent.
theorem lookup?_preSteps (s : Dict) (k : String)
    (h1 : k ≠ "id") (h2 : k ≠ "sub_administrative_area_id") :
    lookup? (preSteps s) k =
      match lookup? s k with
      | some v => some v
      | none => lookup? needed_keys_with_defaults k := by
  unfold preSteps
  rw [lookup?_setAreaStep_ne _ _ h2, lookup?_setIdStep_ne _ _ h1, lookup?_amdi]

theorem lookup?_preSteps_notneeded (s : Dict) (k : String)
    (h1 : k ≠ "id") (h2 : k ≠ "sub_administrative_area_id")
    (h3 : lookup? needed_keys_with_defaults k = none) :
    lookup? (preSteps s) k = lookup? s k := by
  rw [lookup?_preSteps s k h1 h2]
  cases lookup? s k <;> simp [h3]

theorem hasKey_preSteps (s : Dict) (k : String) (hk : k ∈ sample_fieldnames) :
    hasKey (preSteps s) k = true := by
  apply hasKey_setAreaStep
  apply hasKey_setIdStep
  rw [hasKey, lookup?_amdi]
  cases lookup? s k with
  | none => simp [lookup?_needed k hk]
  | some v => simp

-- Success inversion for the result-selection comprehension.
theorem selectedTests_ok_inv (tv : JVal) (ms : List JVal)
    (h : selectedTests tv = .ok ms) :
    ∃ items, pyIter tv = .ok items ∧ pyLen tv = .ok items.length ∧
      exceptFilter isSelDef items = .ok ms := by
  cases tv with
  | arr items => exact ⟨items, rfl, rfl, by simpa [selectedTests, pyIter] using h⟩
  | str s =>
    refine ⟨_, rfl, ?_, ?_⟩
    · simp only [pyLen, List.length_map]
      rfl
    · simpa [selectedTests, pyIter] using h
  | obj fields =>
    refine ⟨_, rfl, ?_, ?_⟩
    · simp only [pyLen, List.length_map]
    · simpa [selectedTests, pyIter] using h
  | null => simp [selectedTests, pyIter] at h
  | bool b => simp [selectedTests, pyIter] at h
  | num n => simp [selectedTests, pyIter] at h

-- A record with no `tests` key gets a null result.
theorem resultStep_no_tests (d : Dict) (h : lookup? d "tests" = none) :
    resultStep d = .ok (setKey d "result" JVal.null) := by
  unfold resultStep
  rw [h]

-- The result step, expressed through the outcome of the comprehension.
theorem resultStep_eq (d : Dict) (tv : JVal) (ms : List JVal)
    (ht : lookup? d "tests" = some tv) (hms : selectedTests tv = .ok ms) :
    resultStep d = .ok (resultOf d ms) := by
  obtain ⟨items, hiter, hlen, hfil⟩ := selectedTests_ok_inv tv ms hms
  unfold resultStep
  simp only [ht, hlen]
  by_cases h0 : items.length = 0
  · rw [List.length_eq_zero] at h0
    subst h0
    simp only [exceptFilter] at hfil
    cases hfil
    simp [resultOf]
  · rw [if_neg h0]
    simp only [hms]
    rcases ms with _ | ⟨m, _ | ⟨m2, rest⟩⟩
    · rfl
    · simp only [resultOf]
      cases tryGetResult m <;> rfl
    · rfl

theorem resultStep_ok_shape (d out : Dict) (h : resultStep d = .ok out) :
    out = d ∨ ∃ v, out = setKey d "result" v := by
  unfold resultStep at h
  split at h
  · cases h; exact Or.inr ⟨_, rfl⟩
  · split at h
    · cases h
    · split at h
      · cases h; exact Or.inr ⟨_, rfl⟩
      · split at h
        · cases h
        · split at h
          · split at h
            · cases h; exact Or.inr ⟨_, rfl⟩
            · cases h; exact Or.inl rfl
          · cases h; exact Or.inr ⟨_, rfl⟩

theorem lookup?_resultStep_ne (d out : Dict) (k : String)
    (h : resultStep d = .ok out) (hk : k ≠ "result") :
    lookup? out k = lookup? d k := by
  rcases resultStep_ok_shape d out h with rfl | ⟨v, rfl⟩
  · rfl
  · exact lookup?_setKey_ne d "result" k v hk

-- The filter condition cannot raise on a dictionary entry.
theorem isSelDef_obj_ok (f : List (String × JVal)) :
    ∃ b, isSelDef (.obj f) = .ok b := by
  cases hk : hasKey f "selected_definitive" with
  | false => exact ⟨false, by simp [isSelDef, pyContainsStr, hk]⟩
  | true =>
    obtain ⟨v, hv⟩ : ∃ v, lookup? f "selected_definitive" = some v := by
      rw [hasKey] at hk
      exact Option.isSome_iff_exists.mp hk
    exact ⟨pyEqTrue v, by simp [isSelDef, pyContainsStr, hk, pySubscrStr, hv]⟩

theorem exceptFilter_all_ok (p : JVal → Except PyErr Bool) (l : List JVal)
    (h : ∀ x, x ∈ l → ∃ b, p x = .ok b) :
    ∃ ms, exceptFilter p l = .ok ms := by
  induction l with
  | nil => exact ⟨[], rfl⟩
  | cons a rest ih =>
    obtain ⟨b, hb⟩ := h a (by simp)
    obtain ⟨ms, hms⟩ := ih (fun x hx => h x (by simp [hx]))
    refine ⟨if b = true then a :: ms else ms, ?_⟩
    simp [exceptFilter, hb, hms]

-- The two possible outcomes of the area-derivation step.
theorem setAreaStep_of_some (d : Dict) (v : JVal) (h : areaOf d = some v) :
    setAreaStep d = setKey d "sub_administrative_area_id" v := by
  unfold areaOf at h
  unfold setAreaStep
  rcases hs : lookup? d "_sub_administrative_area" with _ | w
  · rw [hs] at h; cases h
  · rw [hs] at h
    cases w with
    | obj f =>
      simp only at h
      simp only [h]
    | null => simp at h
    | bool b => simp at h
    | num n => simp at h
    | str s2 => simp at h
    | arr l => simp at h

theorem setAreaStep_of_none (d : Dict) (h : areaOf d = none) :
    setAreaStep d = d := by
  unfold areaOf at h
  unfold setAreaStep
  rcases hs : lookup? d "_sub_administrative_area" with _ | w
  · rfl
  · rw [hs] at h
    cases w with
    | obj f =>
      simp only at h
      simp only [h]
    | null => rfl
    | bool b => rfl
    | num n => rfl
    | str s2 => rfl
    | arr l => rfl

/-!  The claims. -/

/-- C1 (corrected): for every sample record whose `tests` value yields
exactly one entry under the code's filter (`selected_definitive` present
and Python-equal to `True`; the number `1` also compares equal), the
normalizer sets the canonical `result` to that entry's `result` value when
it is readable.  When that entry's `result` field is absent or unreadable,
the canonical `result` keeps its prior value: the input record's `result`
when one was present, otherwise the null installed by the default fill. -/
theorem sample_result_single_match (s : Dict) (tv t : JVal) (out : Dict)
    (hts : lookup? s "tests" = some tv)
    (hsel : selectedTests tv = .ok [t])
    (hout : normalizeSample s = .ok out) :
    (∀ v, tryGetResult t = some v → lookup? out "result" = some v) ∧
    (tryGetResult t = none →
      lookup? out "result" =
        match lookup? s "result" with
        | some v => some v
        | none => some JVal.null) := by
  have hts3 : lookup? (preSteps s) "tests" = some tv := by
    rw [lookup?_preSteps_notneeded s "tests" (by decide) (by decide) rfl, hts]
  unfold normalizeSample at hout
  rw [resultStep_eq _ tv [t] hts3 hsel] at hout
  injection hout with h
  constructor
  · intro v hv
    rw [← h]
    simp only [resultOf, hv]
    exact lookup?_setKey_self _ "result" v
  · intro hnone
    rw [← h]
    simp only [resultOf, hnone]
    rw [lookup?_preSteps s "result" (by decide) (by decide)]
    cases lookup? s "result" <;> rfl

/-- Counterexample to C1 as stated.  First record: its `tests` sequence
has exactly one entry with `selected_definitive` equal to boolean `true`
and that entry has no `result` field, yet the canonical `result` is the
input record's pre-existing value `"old"` rather than null.  Second record:
its `tests` sequence has exactly one entry with `selected_definitive` equal
to boolean `true`, whose `result` is `"pos"`, but the other entry carries
`selected_definitive = 1`, which Python's `==` also treats as `True`, so
the code sees two matches and sets `result` to null instead of `"pos"`. -/
theorem sample_result_single_match_cex :
    (normalizeSample cexStale = .ok cexStaleOut ∧
      lookup? cexStaleOut "result" = some (JVal.str "old") ∧
      JVal.str "old" ≠ JVal.null) ∧
    (normalizeSample cexCoerce = .ok cexCoerceOut ∧
      lookup? cexCoerceOut "result" = some JVal.null ∧
      JVal.null ≠ JVal.str "pos") := by
  refine ⟨⟨rfl, rfl, ?_⟩, rfl, rfl, ?_⟩ <;> simp

/-- Witness for C1 at a concrete sample with one definitive test carrying
a readable result. -/
theorem sample_result_single_match_witness :
    lookup? c1wOut "result" = some (JVal.str "positive") :=
  (sample_result_single_match c1wIn c1wTests
    (JVal.obj [("selected_definitive", JVal.bool true),
               ("result", JVal.str "positive")])
    c1wOut rfl rfl rfl).1 (JVal.str "positive") rfl

/-- C2: the default-fill step leaves every present key-value pair of the
record unchanged (explicit nulls included), sets every absent canonical
field to null so that all seven canonical fields are present, and — being a
total function — never raises; whenever the whole normalizer succeeds, its
output still contains all seven canonical fields. -/
theorem default_fill_seven_fields (s : Dict) :
    (∀ k, k ∈ sample_fieldnames →
      hasKey (add_missing_defaults_inplace s needed_keys_with_defaults) k = true) ∧
    (∀ k v, lookup? s k = some v →
      lookup? (add_missing_defaults_inplace s needed_keys_with_defaults) k = some v) ∧
    (∀ k, k ∈ sample_fieldnames → hasKey s k = false →
      lookup? (add_missing_defaults_inplace s needed_keys_with_defaults) k
        = some JVal.null) ∧
    (∀ out, normalizeSample s = .ok out →
      ∀ k, k ∈ sample_fieldnames → hasKey out k = true) := by
  refine ⟨?_, ?_, ?_, ?_⟩
  · intro k hk
    rw [hasKey, lookup?_amdi]
    cases lookup? s k with
    | none => simp [lookup?_needed k hk]
    | some v => simp
  · intro k v hv
    simp only [lookup?_amdi, hv]
  · intro k hk hnone
    have hsk : lookup? s k = none := by
      cases hl : lookup? s k with
      | none => rfl
      | some v => rw [hasKey, hl] at hnone; cases hnone
    simp only [lookup?_amdi, hsk, lookup?_needed k hk]
  · intro out hout k hk
    have h3 : hasKey (preSteps s) k = true := hasKey_preSteps s k hk
    unfold normalizeSample at hout
    rcases resultStep_ok_shape _ _ hout with rfl | ⟨v, rfl⟩
    · exact h3
    · exact hasKey_setKey _ "result" k v h3

/-- Witness for C2 at a concrete record: the present field keeps its value
and an absent canonical field is filled with null. -/
theorem default_fill_seven_fields_witness :
    lookup? (add_missing_defaults_inplace c2wIn needed_keys_with_defaults) "species"
        = some (JVal.str "deer") ∧
    lookup? (add_missing_defaults_inplace c2wIn needed_keys_with_defaults) "id"
        = some JVal.null :=
  ⟨(default_fill_seven_fields c2wIn).2.1 "species" (JVal.str "deer") rfl,
   (default_fill_seven_fields c2wIn).2.2.1 "id" (by decide) rfl⟩

/-- C3 (corrected): the canonical `result` is set to null whenever the
record has no `tests` key, an empty `tests` value, or a number of entries
other than one passing the code's filter (`selected_definitive` present and
Python-equal to `True`; the number `1` also compares equal). -/
theorem sample_result_no_single_match (s out : Dict)
    (hout : normalizeSample s = .ok out) :
    (lookup? s "tests" = none → lookup? out "result" = some JVal.null) ∧
    (∀ tv, lookup? s "tests" = some tv → pyLen tv = .ok 0 →
      lookup? out "result" = some JVal.null) ∧
    (∀ tv ms, lookup? s "tests" = some tv → selectedTests tv = .ok ms →
      ms.length ≠ 1 → lookup? out "result" = some JVal.null) := by
  unfold normalizeSample at hout
  refine ⟨?_, ?_, ?_⟩
  · intro hnone
    have hts3 : lookup? (preSteps s) "tests" = none := by
      rw [lookup?_preSteps_notneeded s "tests" (by decide) (by decide) rfl, hnone]
    rw [resultStep_no_tests _ hts3] at hout
    injection hout with h
    rw [← h]
    exact lookup?_setKey_self _ "result" JVal.null
  · intro tv hts hlen0
    have hts3 : lookup? (preSteps s) "tests" = some tv := by
      rw [lookup?_preSteps_notneeded s "tests" (by decide) (by decide) rfl, hts]
    unfold resultStep at hout
    simp [hts3, hlen0] at hout
    rw [← hout]
    exact lookup?_setKey_self _ "result" JVal.null
  · intro tv ms hts hsel hlen
    have hts3 : lookup? (preSteps s) "tests" = some tv := by
      rw [lookup?_preSteps_notneeded s "tests" (by decide) (by decide) rfl, hts]
    rw [resultStep_eq _ tv ms hts3 hsel] at hout
    injection hout with h
    rw [← h]
    rcases ms with _ | ⟨m, _ | ⟨m2, rest⟩⟩
    · exact lookup?_setKey_self _ "result" JVal.null
    · simp at hlen
    · exact lookup?_setKey_self _ "result" JVal.null

/-- Counterexample to C3 as stated: this record's `tests` sequence has zero
entries whose `selected_definitive` equals boolean `true`, yet its single
entry carries `selected_definitive = 1`, which Python's `==` treats as
equal to `True`, so the code resolves `result` to `"pos"` instead of the
null the claim requires. -/
theorem sample_result_no_single_match_cex :
    normalizeSample cexOneNum = .ok cexOneNumOut ∧
    lookup? cexOneNumOut "result" = some (JVal.str "pos") ∧
    JVal.str "pos" ≠ JVal.null := by
  refine ⟨rfl, rfl, ?_⟩
  simp

/-- Witness for C3 at a concrete sample with two definitive tests. -/
theorem sample_result_no_single_match_witness :
    lookup? c3wOut "result" = some JVal.null :=
  (sample_result_no_single_match c3wIn c3wOut rfl).2.2 c3wTests
    [JVal.obj [("selected_definitive", JVal.bool true), ("result", JVal.str "A")],
     JVal.obj [("selected_definitive", JVal.bool true), ("result", JVal.str "B")]]
    rfl rfl (by decide)

/-- C7: if a nested `_sub_administrative_area` dictionary with an `_id`
entry is present, the normalizer sets the canonical
`sub_administrative_area_id` to that `_id` value; otherwise the field is
left as the default fill produced — the input record's own value when one
was present, null when it was absent. -/
theorem area_derivation_rule (s out : Dict)
    (hout : normalizeSample s = .ok out) :
    (∀ v, areaOf s = some v →
      lookup? out "sub_administrative_area_id" = some v) ∧
    (areaOf s = none →
      lookup? out "sub_administrative_area_id" =
        match lookup? s "sub_administrative_area_id" with
        | some v => some v
        | none => some JVal.null) := by
  unfold normalizeSample at hout
  have htrans :
      areaOf (setIdStep (add_missing_defaults_inplace s needed_keys_with_defaults))
        = areaOf s := by
    unfold areaOf
    rw [lookup?_setIdStep_ne _ _ (by decide), lookup?_amdi]
    cases lookup? s "_sub_administrative_area" <;> rfl
  have hne : lookup? out "sub_administrative_area_id"
      = lookup? (preSteps s) "sub_administrative_area_id" :=
    lookup?_resultStep_ne _ _ _ hout (by decide)
  constructor
  · intro v hv
    have hps : preSteps s = setKey
        (setIdStep (add_missing_defaults_inplace s needed_keys_with_defaults))
        "sub_administrative_area_id" v :=
      setAreaStep_of_some _ v (htrans.trans hv)
    rw [hne, hps, lookup?_setKey_self]
  · intro hnone
    have hps : preSteps s
        = setIdStep (add_missing_defaults_inplace s needed_keys_with_defaults) :=
      setAreaStep_of_none _ (htrans.trans hnone)
    rw [hne, hps, lookup?_setIdStep_ne _ _ (by decide), lookup?_amdi]
    cases lookup? s "sub_administrative_area_id" <;> rfl

/-- Witness for C7 at a concrete sample carrying a nested area object. -/
theorem area_derivation_rule_witness :
    lookup? c7wOut "sub_administrative_area_id" = some (JVal.str "area1") :=
  (area_derivation_rule c7wIn c7wOut rfl).1 (JVal.str "area1") rfl

/-- C10 (corrected): normalization raises an uncaught `TypeError` on
samples whose `tests` value is null, a number, or a sequence containing a
non-mapping entry, and it is guaranteed total when `tests` is absent or is
a sequence of mappings.  (The converse of the totality guarantee fails:
some non-sequence `tests` values also normalize without raising.) -/
theorem tests_nonsequence_partiality :
    normalizeSample [("tests", JVal.null)] = .error PyErr.typeError ∧
    normalizeSample [("tests", JVal.num 3)] = .error PyErr.typeError ∧
    normalizeSample [("tests", JVal.arr [JVal.num 5])] = .error PyErr.typeError ∧
    (∀ s : Dict, lookup? s "tests" = none → ∃ out, normalizeSample s = .ok out) ∧
    (∀ (s : Dict) (l : List JVal), lookup? s "tests" = some (JVal.arr l) →
      (∀ t, t ∈ l → ∃ f, t = JVal.obj f) →
      ∃ out, normalizeSample s = .ok out) := by
  refine ⟨rfl, rfl, rfl, ?_, ?_⟩
  · intro s hnone
    have hts3 : lookup? (preSteps s) "tests" = none := by
      rw [lookup?_preSteps_notneeded s "tests" (by decide) (by decide) rfl, hnone]
    exact ⟨_, resultStep_no_tests _ hts3⟩
  · intro s l hts hobj
    have hts3 : lookup? (preSteps s) "tests" = some (JVal.arr l) := by
      rw [lookup?_preSteps_notneeded s "tests" (by decide) (by decide) rfl, hts]
    obtain ⟨ms, hms⟩ : ∃ ms, exceptFilter isSelDef l = .ok ms := by
      apply exceptFilter_all_ok
      intro x hx
      obtain ⟨f, rfl⟩ := hobj x hx
      exact isSelDef_obj_ok f
    have hsel : selectedTests (JVal.arr l) = .ok ms := by
      simpa [selectedTests, pyIter] using hms
    exact ⟨_, resultStep_eq _ _ ms hts3 hsel⟩

/-- Counterexample to the totality converse in C10: this record's `tests`
value is a dictionary — present and not a sequence of mappings — yet
normalization succeeds instead of raising. -/
theorem tests_nonsequence_partiality_cex :
    normalizeSample cexObjTests = .ok cexObjTestsOut := rfl

/-- Witness for C10 at a concrete sample whose `tests` is a sequence of
mappings. -/
theorem tests_nonsequence_partiality_witness :
    ∃ out, normalizeSample c10wIn = .ok out :=
  tests_nonsequence_partiality.2.2.2.2 c10wIn c10wTests rfl
    (fun t ht => ⟨[("x", JVal.bool true)], List.mem_singleton.mp ht⟩)

/-- C4: normalizing then tabulating N samples yields a header line followed
by exactly N data lines, the header being the fixed declared column order;
a data row is a function of the record's values at the seven column names
only (so the key order of the input record is irrelevant), and any field
outside the column list is silently dropped — filtering a record down to
the listed columns does not change its row. -/
theorem samples_csv_shape (samples : List JVal) (normed : List Dict)
    (h : mapExcept normalizeSampleVal samples = .ok normed) :
    (writeSamplesCsv normed).length = samples.length + 1 ∧
    (writeSamplesCsv normed).head? = some (writeHeader sample_fieldnames) ∧
    (∀ r : Dict, writeRow sample_fieldnames r =
      writeRow sample_fieldnames
        (r.filter (fun kv => decide (kv.fst ∈ sample_fieldnames)))) ∧
    (∀ r r' : Dict,
      (∀ k, k ∈ sample_fieldnames → lookup? r k = lookup? r' k) →
      writeRow sample_fieldnames r = writeRow sample_fieldnames r') := by
  refine ⟨?_, rfl, ?_, ?_⟩
  · simp [writeSamplesCsv, mapExcept_ok_length normalizeSampleVal samples normed h]
  · intro r
    unfold writeRow
    congr 1
    apply map_congr_mem
    intro k hk
    rw [lookup?_filter_prop r (fun x => decide (x ∈ sample_fieldnames)) k
      (decide_eq_true hk)]
  · intro r r' hrr
    unfold writeRow
    congr 1
    apply map_congr_mem
    intro k hk
    rw [hrr k hk]

/-- Witness for C4 at a concrete one-sample list. -/
theorem samples_csv_shape_witness :
    (writeSamplesCsv c4wNormed).length = c4wSamples.length + 1 :=
  (samples_csv_shape c4wSamples c4wNormed rfl).1

-- For a dictionary with distinct keys, writing a row with the dictionary's
-- own keys as the column list yields exactly its values, in order.
theorem row_cells_of_keys (D : Dict) (hnd : (D.map Prod.fst).Nodup) :
    (D.map Prod.fst).map (fun k =>
      match lookup? D k with
      | some v => renderCell v
      | none => renderCell (JVal.str "")) =
    D.map (fun kv => renderCell kv.snd) := by
  induction D with
  | nil => rfl
  | cons kv rest ih =>
    obtain ⟨k0, v0⟩ := kv
    rw [List.map_cons, List.nodup_cons] at hnd
    rw [List.map_cons, List.map_cons, List.map_cons]
    congr 1
    · simp [lookup?]
    · rw [← ih hnd.2]
      apply map_congr_mem
      intro k hk
      have hne : ¬k0 = k := fun hh => hnd.1 (hh ▸ hk)
      simp [lookup?, hne]

/-- C6: after a successful provider extraction, the `provider` key is gone
from the parameter dictionary that the single-row parameter table is
written from, every other key-value pair is untouched, the reported
administrative-area value is exactly the nested
`_provider._administrative_area.administrative_area` value, and the
serialized table is one header line plus one data line whose cells are the
remaining values in their original order. -/
theorem provider_removed_before_write (pf : Dict) (prov aaObj v : JVal)
    (hnd : (pf.map Prod.fst).Nodup)
    (h1 : pySubscrStr (.obj pf) "_provider" = .ok prov)
    (h2 : pySubscrStr prov "_administrative_area" = .ok aaObj)
    (h3 : pySubscrStr aaObj "administrative_area" = .ok v) :
    hasKey (delKey pf "_provider") "_provider" = false ∧
    (∀ k, k ≠ "_provider" →
      lookup? (delKey pf "_provider") k = lookup? pf k) ∧
    providerAdminArea (.obj pf) = .ok v ∧
    writeParamsCsv (delKey pf "_provider") =
      [writeHeader ((delKey pf "_provider").map Prod.fst),
       String.intercalate ","
         ((delKey pf "_provider").map (fun kv => renderCell kv.snd))] ∧
    (writeParamsCsv (delKey pf "_provider")).length = 2 := by
  refine ⟨?_, ?_, ?_, ?_, rfl⟩
  · rw [hasKey, lookup?_delKey_self]
    rfl
  · intro k hk
    unfold delKey
    exact lookup?_filter_prop pf (fun x => !(x == "_provider")) k (by simp [hk])
  · unfold providerAdminArea
    simp only [h1, h2, h3]
  · have hnd' : ((delKey pf "_provider").map Prod.fst).Nodup := by
      unfold delKey
      exact hnd.sublist ((List.filter_sublist pf).map Prod.fst)
    unfold writeParamsCsv writeRow
    rw [row_cells_of_keys _ hnd']

/-- Witness for C6 at a concrete parameter dictionary. -/
theorem provider_removed_before_write_witness :
    hasKey (delKey c6wParams "_provider") "_provider" = false :=
  (provider_removed_before_write c6wParams
    (JVal.obj [("_administrative_area",
      JVal.obj [("administrative_area", JVal.str "New York")])])
    (JVal.obj [("administrative_area", JVal.str "New York")])
    (JVal.str "New York")
    (by decide) rfl rfl rfl).1

/-- C5: when the parameters document is absent or unparseable, the input
pipeline exits with status 1 without writing any of the three tabular
outputs, the narrative report carries exactly one ERROR heading, and an
ERROR entry is recorded in the execution log before termination. -/
theorem params_missing_halts (dateStr : String)
    (sf af : Option (List JVal)) :
    ∃ st, inputProcessing dateStr none sf af = .exited 1 st ∧
      st.params_csv = none ∧ st.sample_csv = none ∧ st.subadmin_csv = none ∧
      (st.narrative.filter
        (fun e => e.fst == "h4" && e.snd == "ERROR")).length = 1 ∧
      st.log.contains ("ERROR", "params.json File does not exist.") = true :=
  ⟨_, rfl, rfl, rfl, rfl, rfl, rfl⟩

/-- C9: a parameters document that loads successfully but lacks the
`_provider` key makes the input pipeline die with an uncaught `KeyError`
rather than take the Missing-Input path: the narrative report stays at its
preamble (in particular it records no ERROR heading and never reaches the
sample stage), and neither the parameter table nor the sample table is
written. -/
theorem provider_missing_uncaught (dateStr : String)
    (sf af : Option (List JVal)) :
    ∃ st, inputProcessing dateStr
        (some (JVal.obj [("n_years", JVal.num 5)])) sf af
        = .uncaught PyErr.keyError st ∧
      st.narrative =
        [("h3", "Model Execution Summary"),
         ("p", "Model: Prevalence Estimator Data Export"),
         ("p", "Date: " ++ dateStr ++ " GMT")] ∧
      (st.narrative.filter
        (fun e => e.fst == "h4" && e.snd == "ERROR")).length = 0 ∧
      st.params_csv = none ∧ st.sample_csv = none :=
  ⟨_, rfl, rfl, rfl, rfl, rfl⟩

/-- C8: the output pipeline exits with status 1 — after recording a
narrative ERROR heading and a log ERROR entry, and without writing the
spreadsheet or touching the manifest — when the model's tabular output is
absent or unparseable; on success it writes a single-sheet spreadsheet
holding the table verbatim and appends one manifest entry for it with role
`downloadable` and the fixed spreadsheet MIME type. -/
theorem output_pipeline_contract (att0 : List Attachment) :
    (∃ st, output_processing none att0 = .exited 1 st ∧
      st.xlsx = none ∧ st.attachments = att0 ∧
      (st.narrative.filter
        (fun e => e.fst == "h4" && e.snd == "ERROR")).length = 1 ∧
      st.log.contains
        ("ERROR", "SpeedGoatOutputMatrix.csv not found or could not be imported by Pandas.")
        = true) ∧
    (∀ t, ∃ st, output_processing (some t) att0 = .finished st ∧
      st.xlsx = some ⟨"Data", t⟩ ∧
      st.attachments = att0 ++
        [Attachment.mk "PrevalenceEstimatorData.xlsx" xlsxMime "downloadable"]) :=
  ⟨⟨_, rfl, rfl, rfl, rfl, rfl⟩, fun t => ⟨_, rfl, rfl, rfl⟩⟩

end PrevExport
